import Mathlib

/-!
Shallow embedding of the whisper-field persistence and retention engine
(src/backend/app.py).  Timestamps are modelled as `Int` seconds; the
48-hour retention window is `48 * 3600`.  The JSON-file persistence layer
is modelled as explicit state passing on a `Store` record; fallible
`save_data` calls appear as boolean outcome parameters where a claim
depends on them (`True` = the write reached disk, `False` = the old
contents remain persisted).
-/

namespace WhisperField

/-- A whisper record, as written to whispers.json by `create_whisper`. -/
structure Whisper where
  id : Nat
  content : String
  topic : String
  is_sensitive : Bool
  replies_count : Nat
  created_at : Int
  deriving Repr, DecidableEq

/-- A reply record, as written to replies.json by `create_reply`. -/
structure Reply where
  id : Nat
  whisper_id : Nat
  content : String
  created_at : Int
  deriving Repr, DecidableEq

/-- The persisted state: the two JSON collections. -/
structure Store where
  whispers : List Whisper
  replies : List Reply
  deriving Repr, DecidableEq

/-- The fixed topic list `ALL_TOPICS` from app.py. -/
def ALL_TOPICS : List String :=
  ["confession", "life", "secrets", "advice", "love",
   "series-movies", "politically-incorrect", "paranormal",
   "health-fitness", "vent", "music", "fashion",
   "gaming", "otaku-stuff", "random"]

/-- `cutoff_time = datetime.utcnow() - timedelta(hours=48)` in seconds. -/
def cutoffOf (now : Int) : Int := now - 48 * 3600

/-- The keep condition of the cleanup loop: `created_time > cutoff_time`. -/
def keeps (cutoff : Int) (w : Whisper) : Bool := decide (cutoff < w.created_at)

/-- `filtered_whispers` of `cleanup_old_whispers`. -/
def kept_whispers (now : Int) (ws : List Whisper) : List Whisper :=
  ws.filter (keeps (cutoffOf now))

/-- `deleted_ids` of `cleanup_old_whispers`: ids of whispers with
`created_time <= cutoff_time`. -/
def deleted_ids (now : Int) (ws : List Whisper) : List Nat :=
  (ws.filter (fun w => ! keeps (cutoffOf now) w)).map (fun w => w.id)

/-- `cleanup_old_whispers`: partitions whispers at the 48h cutoff; when any
whisper expired, removes the replies referencing the deleted ids and saves
both collections (2 writes); otherwise performs no writes.  The second
component counts the `save_data` calls performed. -/
def cleanup_old_whispers (now : Int) (s : Store) : Store × Nat :=
  if (deleted_ids now s.whispers).isEmpty then (s, 0)
  else
    ({ whispers := kept_whispers now s.whispers,
       replies := s.replies.filter
         (fun r => ! (deleted_ids now s.whispers).contains r.whisper_id) }, 2)

/-- `max([w['id'] for w in ws], default=0)`. -/
def max_id (ids : List Nat) : Nat := ids.foldr max 0

/-- Descending created_at order used by `whispers.sort(..., reverse=True)`. -/
def createdGe (a b : Whisper) : Prop := b.created_at ≤ a.created_at

instance : DecidableRel createdGe := fun a b =>
  inferInstanceAs (Decidable (b.created_at ≤ a.created_at))

instance : IsTotal Whisper createdGe :=
  ⟨fun a b => le_total b.created_at a.created_at⟩

instance : IsTrans Whisper createdGe :=
  ⟨fun _ _ _ h1 h2 => le_trans h2 h1⟩

/-- Ascending created_at order used by `whisper_replies.sort(...)`. -/
def createdLe (a b : Reply) : Prop := a.created_at ≤ b.created_at

instance : DecidableRel createdLe := fun a b =>
  inferInstanceAs (Decidable (a.created_at ≤ b.created_at))

instance : IsTotal Reply createdLe :=
  ⟨fun a b => le_total a.created_at b.created_at⟩

instance : IsTrans Reply createdLe :=
  ⟨fun _ _ _ h1 h2 => le_trans h1 h2⟩

/-- `GET /api/whispers`: runs the cleanup sweep, reloads, filters by topic
unless the filter is "all", and sorts newest first.  Returns the response
list and the persisted state after the sweep. -/
def get_whispers (topic : String) (now : Int) (s : Store) : List Whisper × Store :=
  let s1 := (cleanup_old_whispers now s).1
  let ws := if topic ≠ "all" then s1.whispers.filter (fun w => w.topic == topic)
            else s1.whispers
  (List.insertionSort createdGe ws, s1)

/-- `GET /api/whispers/<id>`: linear lookup, no cleanup sweep. -/
def get_whisper (id : Nat) (s : Store) : Option Whisper :=
  s.whispers.find? (fun w => w.id == id)

/-- `GET /api/whispers/<id>/replies`: filter by whisper_id and sort oldest
first; no cleanup sweep. -/
def get_replies (id : Nat) (s : Store) : List Reply :=
  List.insertionSort createdLe (s.replies.filter (fun r => r.whisper_id == id))

/-- Outcome of `POST /api/whispers`. -/
inductive CreateWhisperResult where
  | validationError
  | saveError
  | success (w : Whisper)
  deriving Repr, DecidableEq

/-- Python str.strip() as used on content fields: drop whitespace from both
ends of the character sequence. -/
def pyStrip (s : String) : String :=
  ⟨((s.toList.dropWhile Char.isWhitespace).reverse.dropWhile
      Char.isWhitespace).reverse⟩

/-- The whisper dict built at lines 149-156 of app.py. -/
def new_whisper (c : String) (topic : Option String) (sv : Option Bool)
    (now : Int) (s : Store) : Whisper :=
  { id := max_id (s.whispers.map (fun w => w.id)) + 1
    content := pyStrip c
    topic := topic.getD "random"
    is_sensitive := sv.getD false
    replies_count := 0
    created_at := now }

/-- `create_whisper`: `not data.get('content')` rejects a missing or empty
content string (whitespace survives the check); the id is
`max(ids, default 0) + 1`; the topic defaults to "random" only when the
field is absent; content is stored stripped.  `saveOk` is the outcome of
the single `save_data` call. -/
def create_whisper (saveOk : Bool) (content topic : Option String)
    (sv : Option Bool) (now : Int) (s : Store) :
    CreateWhisperResult × Store :=
  match content with
  | none => (.validationError, s)
  | some c =>
    if c = "" then (.validationError, s)
    else
      let w := new_whisper c topic sv now s
      if saveOk then (.success w, { s with whispers := s.whispers ++ [w] })
      else (.saveError, s)

/-- Outcome of `POST /api/whispers/<id>/replies`. -/
inductive CreateReplyResult where
  | validationError
  | notFound
  | saveError
  | success (r : Reply)
  deriving Repr, DecidableEq

/-- Replace the first element satisfying `p` (the dict aliased by
`next(...)` in `create_reply`, mutated in place). -/
def updateFirst (p : α → Bool) (f : α → α) : List α → List α
  | [] => []
  | x :: xs => if p x then f x :: xs else x :: updateFirst p f xs

/-- The reply dict built at lines 213-218 of app.py. -/
def new_reply (wid : Nat) (c : String) (now : Int) (s : Store) : Reply :=
  { id := max_id (s.replies.map (fun r => r.id)) + 1
    whisper_id := wid
    content := pyStrip c
    created_at := now }

/-- Line 224 of app.py: set the first matching whisper's replies_count to
the number of replies in `rs` that reference it. -/
def recount_whispers (wid : Nat) (rs : List Reply) (ws : List Whisper) :
    List Whisper :=
  updateFirst (fun w => w.id == wid)
    (fun w => { w with replies_count := rs.countP (fun r => r.whisper_id == wid) })
    ws

/-- `create_reply`: rejects missing/empty content, 404s when no whisper has
the id, appends the reply with id `max+1`, and on a successful replies save
recomputes the parent's replies_count from the appended collection and
saves the whispers — ignoring that second save's outcome.
`saveRepliesOk` / `saveWhispersOk` are the outcomes of the two
`save_data` calls. -/
def create_reply (saveRepliesOk saveWhispersOk : Bool) (id : Nat)
    (content : Option String) (now : Int) (s : Store) :
    CreateReplyResult × Store :=
  match content with
  | none => (.validationError, s)
  | some c =>
    if c = "" then (.validationError, s)
    else
      match s.whispers.find? (fun w => w.id == id) with
      | none => (.notFound, s)
      | some _ =>
        let r := new_reply id c now s
        let rs := s.replies ++ [r]
        if saveRepliesOk then
          let ws := recount_whispers id rs s.whispers
          if saveWhispersOk then (.success r, { whispers := ws, replies := rs })
          else (.success r, { s with replies := rs })
        else (.saveError, s)

/-- A sequence of sequential CreateWhisper calls (all saves succeeding, no
expiry in between): returns the assigned ids in call order and the final
state, stopping at the first unsuccessful call. -/
def runCreates (contents : List String) (now : Int) (s : Store) :
    List Nat × Store :=
  match contents with
  | [] => ([], s)
  | c :: cs =>
    match create_whisper true (some c) none none now s with
    | (.success w, s1) =>
      let rest := runCreates cs now s1
      (w.id :: rest.1, rest.2)
    | (_, s1) => ([], s1)

/-- A sequence of sequential CreateReply calls against whisper `wid` (all
saves succeeding): the final state. -/
def runReplies (wid : Nat) (contents : List String) (now : Int) (s : Store) :
    Store :=
  match contents with
  | [] => s
  | c :: cs => runReplies wid cs now (create_reply true true wid (some c) now s).2

/-! ### Helper lemmas -/

theorem mem_le_max_id {ids : List Nat} {x : Nat} (hx : x ∈ ids) :
    x ≤ max_id ids := by
  induction ids with
  | nil => cases hx
  | cons a as ih =>
    rcases List.mem_cons.mp hx with h | h
    · subst h; exact le_max_left _ _
    · exact le_trans (ih h) (le_max_right _ _)

theorem max_id_succ_not_mem (ids : List Nat) : max_id ids + 1 ∉ ids := by
  intro h
  have := mem_le_max_id h
  omega

theorem max_id_append_one (ids : List Nat) (x : Nat) :
    max_id (ids ++ [x]) = max (max_id ids) x := by
  induction ids with
  | nil => simp [max_id]
  | cons a as ih =>
    simp only [List.cons_append, max_id, List.foldr_cons] at *
    rw [ih]
    exact (Nat.max_assoc _ _ _).symm

theorem deleted_ids_nil_iff (now : Int) (ws : List Whisper) :
    deleted_ids now ws = [] ↔ ∀ w ∈ ws, keeps (cutoffOf now) w := by
  unfold deleted_ids
  rw [List.map_eq_nil_iff, List.filter_eq_nil_iff]
  simp

theorem mem_deleted_ids {now : Int} {ws : List Whisper} {w : Whisper}
    (hw : w ∈ ws) (hk : ¬ keeps (cutoffOf now) w = true) :
    w.id ∈ deleted_ids now ws := by
  unfold deleted_ids
  exact List.mem_map_of_mem _ (List.mem_filter.mpr ⟨hw, by simp [hk]⟩)

theorem cleanup_of_deleted_nil {now : Int} {s : Store}
    (h : deleted_ids now s.whispers = []) :
    cleanup_old_whispers now s = (s, 0) := by
  unfold cleanup_old_whispers
  simp [h]

theorem cleanup_whispers_keeps (now : Int) (s : Store) :
    ∀ w ∈ (cleanup_old_whispers now s).1.whispers,
      cutoffOf now < w.created_at := by
  intro w hw
  unfold cleanup_old_whispers at hw
  by_cases h : (deleted_ids now s.whispers).isEmpty
  · simp only [h, if_true] at hw
    have hk := (deleted_ids_nil_iff now s.whispers).mp
      (List.isEmpty_iff.mp h) w hw
    simpa [keeps] using hk
  · simp only [h, if_false] at hw
    have hk := (List.mem_filter.mp hw).2
    simpa [keeps] using hk

theorem cleanup_deleted_ids_nil (now : Int) (s : Store) :
    deleted_ids now (cleanup_old_whispers now s).1.whispers = [] := by
  refine (deleted_ids_nil_iff now _).mpr ?_
  intro w hw
  have := cleanup_whispers_keeps now s w hw
  simpa [keeps] using this

theorem create_whisper_some (c : String) (hc : c ≠ "") (topic : Option String)
    (sv : Option Bool) (now : Int) (s : Store) :
    create_whisper true (some c) topic sv now s =
      (.success (new_whisper c topic sv now s),
       { s with whispers := s.whispers ++ [new_whisper c topic sv now s] }) := by
  simp [create_whisper, hc]

theorem create_reply_some {wid : Nat} {c : String} (hc : c ≠ "") {now : Int}
    {s : Store} {w0 : Whisper}
    (hfind : s.whispers.find? (fun w => w.id == wid) = some w0) :
    create_reply true true wid (some c) now s =
      (.success (new_reply wid c now s),
       { whispers := recount_whispers wid (s.replies ++ [new_reply wid c now s])
           s.whispers,
         replies := s.replies ++ [new_reply wid c now s] }) := by
  simp [create_reply, hc, hfind]

theorem create_reply_some_wfail {wid : Nat} {c : String} (hc : c ≠ "")
    {now : Int} {s : Store} {w0 : Whisper}
    (hfind : s.whispers.find? (fun w => w.id == wid) = some w0) :
    create_reply true false wid (some c) now s =
      (.success (new_reply wid c now s),
       { s with replies := s.replies ++ [new_reply wid c now s] }) := by
  simp [create_reply, hc, hfind]

theorem find?_updateFirst (p : α → Bool) (f : α → α)
    (hpf : ∀ x, p x = true → p (f x) = true) :
    ∀ l : List α, (updateFirst p f l).find? p = (l.find? p).map f := by
  intro l
  induction l with
  | nil => rfl
  | cons x xs ih =>
    by_cases hx : p x = true
    · rw [updateFirst, if_pos hx, List.find?_cons_of_pos _ (hpf x hx),
        List.find?_cons_of_pos _ hx]
      rfl
    · rw [updateFirst, if_neg hx, List.find?_cons_of_neg _ hx,
        List.find?_cons_of_neg _ hx, ih]

theorem mem_get_whispers_keeps (topic : String) (now : Int) (s : Store) :
    ∀ w ∈ (get_whispers topic now s).1, cutoffOf now < w.created_at := by
  intro w hw
  unfold get_whispers at hw
  have hw1 := (List.perm_insertionSort createdGe _).mem_iff.mp hw
  by_cases ht : topic = "all"
  · simp only [ht, ne_eq, not_true_eq_false, if_false] at hw1
    exact cleanup_whispers_keeps now s w hw1
  · simp only [ne_eq, ht, not_false_eq_true, if_true] at hw1
    exact cleanup_whispers_keeps now s w (List.mem_filter.mp hw1).1

theorem runCreates_ids (now : Int) (contents : List String) :
    ∀ s : Store, (∀ c ∈ contents, c ≠ "") →
      (runCreates contents now s).1
        = List.range' (max_id (s.whispers.map (fun w => w.id)) + 1)
            contents.length := by
  induction contents with
  | nil => intro s _; rfl
  | cons c cs ih =>
    intro s hall
    have hc : c ≠ "" := hall c (List.mem_cons_self c cs)
    have hcs : ∀ x ∈ cs, x ≠ "" := fun x hx => hall x (List.mem_cons_of_mem c hx)
    simp only [runCreates, create_whisper_some c hc]
    rw [ih _ hcs]
    simp only [List.map_append, List.map_cons, List.map_nil,
      max_id_append_one, List.length_cons]
    have hmax : max (max_id (s.whispers.map (fun w => w.id)))
        (new_whisper c none none now s).id
        = max_id (s.whispers.map (fun w => w.id)) + 1 := by
      have : (new_whisper c none none now s).id
          = max_id (s.whispers.map (fun w => w.id)) + 1 := rfl
      omega
    rw [hmax]
    rfl

theorem find?_recount (wid : Nat) (rs : List Reply) (ws : List Whisper)
    {w0 : Whisper} (hfind : ws.find? (fun w => w.id == wid) = some w0) :
    (recount_whispers wid rs ws).find? (fun w => w.id == wid)
      = some { w0 with
          replies_count := rs.countP (fun r => r.whisper_id == wid) } := by
  unfold recount_whispers
  rw [find?_updateFirst (fun w => w.id == wid)
    (fun w => { w with
      replies_count := rs.countP (fun r => r.whisper_id == wid) })
    (fun x hx => hx) ws, hfind]
  rfl

theorem create_reply_count (wid : Nat) {c : String} (hc : c ≠ "") (now : Int)
    (s : Store) {w0 : Whisper}
    (hfind : s.whispers.find? (fun w => w.id == wid) = some w0) :
    ∃ w1, ((create_reply true true wid (some c) now s).2.whispers.find?
        (fun w => w.id == wid) = some w1)
      ∧ w1.replies_count
          = (create_reply true true wid (some c) now s).2.replies.countP
              (fun r => r.whisper_id == wid) := by
  rw [create_reply_some hc hfind]
  exact ⟨_, find?_recount wid _ s.whispers hfind, rfl⟩

/-! ### Claim theorems -/

/-- C7: For every collection state and topic filter, ListWhispers output has
non-increasing createdAt (newest first), and for every whisper id,
ListReplies output has non-decreasing createdAt (oldest first). -/
theorem C7_listings_sorted (topic : String) (now : Int) (s : Store) (id : Nat) :
    List.Pairwise (fun a b => b.created_at ≤ a.created_at)
      (get_whispers topic now s).1
    ∧ List.Pairwise (fun a b => a.created_at ≤ b.created_at)
      (get_replies id s) :=
  ⟨List.sorted_insertionSort createdGe _, List.sorted_insertionSort createdLe _⟩

/-- C1 (amended): Only ListWhispers invokes the expiry sweep before
computing its result, so no whisper with createdAt at or before now - 48h
ever appears in a ListWhispers result; GetWhisper and ListReplies do not
invoke the sweep and can still return such a whisper or its replies while
it is not yet swept. -/
theorem C1_listWhispers_no_expired (topic : String) (now : Int) (s : Store)
    (w : Whisper) (hw : w ∈ (get_whispers topic now s).1) :
    cutoffOf now < w.created_at :=
  mem_get_whispers_keeps topic now s w hw

/-- C1 is false as stated: with a single whisper created at time 0 and a
reply to it, at now = 1000000 (far past the 48-hour window) GetWhisper
still returns the expired whisper and ListReplies still returns its reply,
because neither read path invokes the expiry sweep. -/
theorem C1_counterexample :
    (Whisper.mk 1 "old" "random" false 1 0).created_at ≤ cutoffOf 1000000
    ∧ get_whisper 1 (Store.mk [Whisper.mk 1 "old" "random" false 1 0]
        [Reply.mk 1 1 "re" 0])
      = some (Whisper.mk 1 "old" "random" false 1 0)
    ∧ get_replies 1 (Store.mk [Whisper.mk 1 "old" "random" false 1 0]
        [Reply.mk 1 1 "re" 0])
      = [Reply.mk 1 1 "re" 0] :=
  ⟨by decide, by decide, by decide⟩

/-- Witness for C1 (amended) at a concrete fresh whisper. -/
theorem C1_listWhispers_no_expired_witness :
    Whisper.mk 1 "hi" "vent" false 0 100
        ∈ (get_whispers "all" 100
            (Store.mk [Whisper.mk 1 "hi" "vent" false 0 100] [])).1
    ∧ cutoffOf 100 < (Whisper.mk 1 "hi" "vent" false 0 100).created_at :=
  ⟨by decide, C1_listWhispers_no_expired "all" 100
      (Store.mk [Whisper.mk 1 "hi" "vent" false 0 100] [])
      (Whisper.mk 1 "hi" "vent" false 0 100) (by decide)⟩

/-- C2 (amended): CreateWhisper rejects a missing content field or the
empty string with a ValidationError, leaving the whispers collection
unchanged and consuming no identifier; but content that is non-empty yet
whitespace-only passes the validation and creates a whisper (content
stored stripped, an identifier consumed). -/
theorem C2_empty_content_rejected (saveOk : Bool) (topic : Option String)
    (sv : Option Bool) (now : Int) (s : Store) (c : String) (hc : c ≠ "") :
    create_whisper saveOk none topic sv now s = (.validationError, s)
    ∧ create_whisper saveOk (some "") topic sv now s = (.validationError, s)
    ∧ (create_whisper true (some c) topic sv now s).1
        = .success (new_whisper c topic sv now s)
    ∧ (create_whisper true (some c) topic sv now s).2.whispers
        = s.whispers ++ [new_whisper c topic sv now s] := by
  refine ⟨rfl, by simp [create_whisper], ?_, ?_⟩
  · rw [create_whisper_some c hc]
  · rw [create_whisper_some c hc]

/-- C2 is false as stated: the whitespace-only content " " does not produce
a ValidationError — the check `not data.get('content')` only rejects the
empty string — so a record with content stripped to empty is created and
identifier 1 is consumed. -/
theorem C2_counterexample :
    (create_whisper true (some " ") none none 0 (Store.mk [] [])).1
      = .success (Whisper.mk 1 "" "random" false 0 0)
    ∧ (create_whisper true (some " ") none none 0
        (Store.mk [] [])).2.whispers.length = 1 :=
  ⟨by decide, by decide⟩

/-- Witness for C2 (amended) at content " ". -/
theorem C2_empty_content_rejected_witness :
    (" " ≠ "")
    ∧ create_whisper true none none none 0 (Store.mk [] [])
        = (.validationError, Store.mk [] [])
    ∧ create_whisper true (some "") none none 0 (Store.mk [] [])
        = (.validationError, Store.mk [] [])
    ∧ (create_whisper true (some " ") none none 0 (Store.mk [] [])).1
        = .success (new_whisper " " none none 0 (Store.mk [] []))
    ∧ (create_whisper true (some " ") none none 0 (Store.mk [] [])).2.whispers
        = [] ++ [new_whisper " " none none 0 (Store.mk [] [])] :=
  ⟨by decide,
   (C2_empty_content_rejected true none none 0 (Store.mk [] []) " "
      (by decide)).1,
   (C2_empty_content_rejected true none none 0 (Store.mk [] []) " "
      (by decide)).2.1,
   (C2_empty_content_rejected true none none 0 (Store.mk [] []) " "
      (by decide)).2.2.1,
   (C2_empty_content_rejected true none none 0 (Store.mk [] []) " "
      (by decide)).2.2.2⟩

/-- C5: Expire is idempotent — running the sweep twice at the same instant
with no writes in between leaves the collections exactly as after the
first run, and the second run performs no writes; moreover when the
expired partition is empty the sweep performs no writes and leaves the
store untouched. -/
theorem C5_cleanup_idempotent (now : Int) (s : Store) :
    (cleanup_old_whispers now (cleanup_old_whispers now s).1).1
      = (cleanup_old_whispers now s).1
    ∧ (cleanup_old_whispers now (cleanup_old_whispers now s).1).2 = 0
    ∧ (deleted_ids now s.whispers = [] →
        cleanup_old_whispers now s = (s, 0)) := by
  have h2 := cleanup_of_deleted_nil (cleanup_deleted_ids_nil now s)
  exact ⟨by rw [h2], by rw [h2], fun hnil => cleanup_of_deleted_nil hnil⟩

/-- Witness for C5 at a concrete store holding one fresh whisper and one
reply, where nothing is expired. -/
theorem C5_cleanup_idempotent_witness :
    deleted_ids 100
        (Store.mk [Whisper.mk 1 "hi" "vent" false 1 100]
          [Reply.mk 1 1 "re" 120]).whispers = []
    ∧ cleanup_old_whispers 100
        (Store.mk [Whisper.mk 1 "hi" "vent" false 1 100]
          [Reply.mk 1 1 "re" 120])
      = (Store.mk [Whisper.mk 1 "hi" "vent" false 1 100]
          [Reply.mk 1 1 "re" 120], 0) :=
  ⟨by decide,
   (C5_cleanup_idempotent 100
      (Store.mk [Whisper.mk 1 "hi" "vent" false 1 100]
        [Reply.mk 1 1 "re" 120])).2.2 (by decide)⟩

/-- C3: Starting from an empty whispers collection, any number of
sequential successful CreateWhisper calls (no interleaving, no expiry in
between) assign exactly the identifiers 1, 2, ..., N in call order. -/
theorem C3_sequential_ids (contents : List String) (now : Int)
    (rs : List Reply) (hall : ∀ c ∈ contents, c ≠ "") :
    (runCreates contents now (Store.mk [] rs)).1
      = List.range' 1 contents.length := by
  simpa [max_id] using runCreates_ids now contents (Store.mk [] rs) hall

/-- Witness for C3: three creates from the empty store yield ids 1, 2, 3. -/
theorem C3_sequential_ids_witness :
    (∀ c ∈ ["a", "b", "c"], c ≠ "")
    ∧ (runCreates ["a", "b", "c"] 0 (Store.mk [] [])).1
        = List.range' 1 ["a", "b", "c"].length :=
  ⟨by decide, C3_sequential_ids ["a", "b", "c"] 0 [] (by decide)⟩

/-- C4 (amended): Within each collection the next identifier is
max(existing ids) + 1 (so 1 when the collection is empty), hence a newly
assigned id differs from every id currently present and uniqueness is
preserved; identifiers CAN however be reassigned after the expiry sweep
deletes the records carrying the maximum id. -/
theorem C4_next_id_fresh (s : Store) (now : Int) (c : String) (hc : c ≠ "")
    (topic : Option String) (sv : Option Bool) :
    ((create_whisper true (some c) topic sv now s).1
        = .success (new_whisper c topic sv now s)
      ∧ (new_whisper c topic sv now s).id
          = max_id (s.whispers.map (fun w => w.id)) + 1
      ∧ (new_whisper c topic sv now s).id ∉ s.whispers.map (fun w => w.id))
    ∧ ∀ wid w0, s.whispers.find? (fun w => w.id == wid) = some w0 →
        ((create_reply true true wid (some c) now s).1
            = .success (new_reply wid c now s)
          ∧ (new_reply wid c now s).id
              = max_id (s.replies.map (fun r => r.id)) + 1
          ∧ (new_reply wid c now s).id ∉ s.replies.map (fun r => r.id)) := by
  constructor
  · exact ⟨by rw [create_whisper_some c hc], rfl, max_id_succ_not_mem _⟩
  · intro wid w0 hfind
    exact ⟨by rw [create_reply_some hc hfind], rfl, max_id_succ_not_mem _⟩

/-- C4 is false as stated: identifier 1 is assigned to a whisper, the
expiry sweep deletes that whisper, and the next CreateWhisper assigns
identifier 1 again — an id is reused after a deletion, because the next id
is computed only from the ids still present. -/
theorem C4_counterexample :
    (Store.mk [Whisper.mk 1 "old" "random" false 0 0] []).whispers.map
        (fun w => w.id) = [1]
    ∧ (cleanup_old_whispers 1000000
        (Store.mk [Whisper.mk 1 "old" "random" false 0 0] [])).1.whispers = []
    ∧ (create_whisper true (some "x") none none 1000000
        (cleanup_old_whispers 1000000
          (Store.mk [Whisper.mk 1 "old" "random" false 0 0] [])).1).1
      = .success (Whisper.mk 1 "x" "random" false 0 1000000) :=
  ⟨by decide, by decide, by decide⟩

/-- Witness for C4 (amended) at a concrete store with one whisper and one
reply. -/
theorem C4_next_id_fresh_witness :
    ("x" ≠ "")
    ∧ ((create_whisper true (some "x") none none 0
          (Store.mk [Whisper.mk 1 "hi" "vent" false 1 100]
            [Reply.mk 1 1 "re" 120])).1
        = .success (new_whisper "x" none none 0
            (Store.mk [Whisper.mk 1 "hi" "vent" false 1 100]
              [Reply.mk 1 1 "re" 120]))
      ∧ (new_whisper "x" none none 0
          (Store.mk [Whisper.mk 1 "hi" "vent" false 1 100]
            [Reply.mk 1 1 "re" 120])).id
          = max_id ((Store.mk [Whisper.mk 1 "hi" "vent" false 1 100]
              [Reply.mk 1 1 "re" 120]).whispers.map (fun w => w.id)) + 1
      ∧ (new_whisper "x" none none 0
          (Store.mk [Whisper.mk 1 "hi" "vent" false 1 100]
            [Reply.mk 1 1 "re" 120])).id
          ∉ (Store.mk [Whisper.mk 1 "hi" "vent" false 1 100]
              [Reply.mk 1 1 "re" 120]).whispers.map (fun w => w.id))
    ∧ ((Store.mk [Whisper.mk 1 "hi" "vent" false 1 100]
          [Reply.mk 1 1 "re" 120]).whispers.find? (fun w => w.id == 1)
        = some (Whisper.mk 1 "hi" "vent" false 1 100))
    ∧ ((create_reply true true 1 (some "x") 0
          (Store.mk [Whisper.mk 1 "hi" "vent" false 1 100]
            [Reply.mk 1 1 "re" 120])).1
        = .success (new_reply 1 "x" 0
            (Store.mk [Whisper.mk 1 "hi" "vent" false 1 100]
              [Reply.mk 1 1 "re" 120]))
      ∧ (new_reply 1 "x" 0
          (Store.mk [Whisper.mk 1 "hi" "vent" false 1 100]
            [Reply.mk 1 1 "re" 120])).id
          = max_id ((Store.mk [Whisper.mk 1 "hi" "vent" false 1 100]
              [Reply.mk 1 1 "re" 120]).replies.map (fun r => r.id)) + 1
      ∧ (new_reply 1 "x" 0
          (Store.mk [Whisper.mk 1 "hi" "vent" false 1 100]
            [Reply.mk 1 1 "re" 120])).id
          ∉ (Store.mk [Whisper.mk 1 "hi" "vent" false 1 100]
              [Reply.mk 1 1 "re" 120]).replies.map (fun r => r.id)) :=
  ⟨by decide,
   (C4_next_id_fresh (Store.mk [Whisper.mk 1 "hi" "vent" false 1 100]
      [Reply.mk 1 1 "re" 120]) 0 "x" (by decide) none none).1,
   by decide,
   (C4_next_id_fresh (Store.mk [Whisper.mk 1 "hi" "vent" false 1 100]
      [Reply.mk 1 1 "re" 120]) 0 "x" (by decide) none none).2 1
     (Whisper.mk 1 "hi" "vent" false 1 100) (by decide)⟩

/-- C8 (amended): the stored topic is exactly the request's topic field
when present and the catch-all "random" when absent; the default lies in
the enumerated topic list, but a supplied topic string is stored verbatim
without validation, so the stored topic need not belong to ALL_TOPICS. -/
theorem C8_topic_verbatim (c : String) (hc : c ≠ "") (topic : Option String)
    (sv : Option Bool) (now : Int) (s : Store) :
    ((create_whisper true (some c) topic sv now s).1
        = .success (new_whisper c topic sv now s))
    ∧ (new_whisper c topic sv now s).topic = topic.getD "random"
    ∧ (topic = none → (new_whisper c topic sv now s).topic ∈ ALL_TOPICS) := by
  refine ⟨by rw [create_whisper_some c hc], rfl, ?_⟩
  intro h
  subst h
  show "random" ∈ ALL_TOPICS
  decide

/-- C8 is false as stated: a topic outside the enumerated set is stored
verbatim rather than replaced by the catch-all "random". -/
theorem C8_counterexample :
    ((create_whisper true (some "hi") (some "not-a-topic") none 0
        (Store.mk [] [])).1
      = .success (Whisper.mk 1 "hi" "not-a-topic" false 0 0))
    ∧ "not-a-topic" ∉ ALL_TOPICS :=
  ⟨by decide, by decide⟩

/-- Witness for C8 (amended) with the topic field absent. -/
theorem C8_topic_verbatim_witness :
    ("hi" ≠ "")
    ∧ ((create_whisper true (some "hi") none none 0 (Store.mk [] [])).1
        = .success (new_whisper "hi" none none 0 (Store.mk [] [])))
    ∧ (new_whisper "hi" none none 0 (Store.mk [] [])).topic
        = (none : Option String).getD "random"
    ∧ (new_whisper "hi" none none 0 (Store.mk [] [])).topic ∈ ALL_TOPICS :=
  ⟨by decide,
   (C8_topic_verbatim "hi" (by decide) none none 0 (Store.mk [] [])).1,
   (C8_topic_verbatim "hi" (by decide) none none 0 (Store.mk [] [])).2.1,
   (C8_topic_verbatim "hi" (by decide) none none 0 (Store.mk [] [])).2.2 rfl⟩

/-- C6: Cascade completeness — for every whisper expired at sweep time
(createdAt at or before now - 48h), after the sweep no reply referencing
its id remains in the replies collection, the whisper is absent from every
ListWhispers result at the same or any later instant, and GetWhisper on
the swept store never returns it. -/
theorem C6_cascade_complete (s : Store) (now now2 : Int) (hle : now ≤ now2)
    (w : Whisper) (hw : w ∈ s.whispers) (hexp : w.created_at ≤ cutoffOf now) :
    (∀ r ∈ (cleanup_old_whispers now s).1.replies, r.whisper_id ≠ w.id)
    ∧ (∀ topic, w ∉ (get_whispers topic now2 s).1)
    ∧ (∀ w2, get_whisper w.id (cleanup_old_whispers now s).1 = some w2 →
        w2 ≠ w) := by
  have hk : ¬ keeps (cutoffOf now) w = true := by
    simp only [keeps, decide_eq_true_eq]
    omega
  have hdel : w.id ∈ deleted_ids now s.whispers := mem_deleted_ids hw hk
  refine ⟨?_, ?_, ?_⟩
  · intro r hr hcontra
    unfold cleanup_old_whispers at hr
    have hne : ¬ (deleted_ids now s.whispers).isEmpty = true := by
      intro h
      rw [List.isEmpty_iff.mp h] at hdel
      cases hdel
    simp only [if_neg hne] at hr
    have hnotin := (List.mem_filter.mp hr).2
    rw [hcontra] at hnotin
    simp at hnotin
    exact hnotin hdel
  · intro topic hmem
    have h1 := mem_get_whispers_keeps topic now2 s w hmem
    unfold cutoffOf at h1 hexp
    omega
  · intro w2 hfind heq
    have hmem := List.mem_of_find?_eq_some hfind
    have h1 := cleanup_whispers_keeps now s w2 hmem
    rw [heq] at h1
    omega

/-- Witness for C6 at a concrete store with one expired whisper, one fresh
whisper and a reply to each. -/
theorem C6_cascade_complete_witness :
    ((1000000 : Int) ≤ 1000000)
    ∧ Whisper.mk 1 "old" "random" false 1 0
        ∈ (Store.mk [Whisper.mk 1 "old" "random" false 1 0,
            Whisper.mk 2 "new" "vent" false 1 999999]
            [Reply.mk 1 1 "re" 10, Reply.mk 2 2 "re2" 999999]).whispers
    ∧ (Whisper.mk 1 "old" "random" false 1 0).created_at ≤ cutoffOf 1000000
    ∧ ((∀ r ∈ (cleanup_old_whispers 1000000
          (Store.mk [Whisper.mk 1 "old" "random" false 1 0,
            Whisper.mk 2 "new" "vent" false 1 999999]
            [Reply.mk 1 1 "re" 10, Reply.mk 2 2 "re2" 999999])).1.replies,
          r.whisper_id ≠ (Whisper.mk 1 "old" "random" false 1 0).id)
      ∧ (∀ topic, Whisper.mk 1 "old" "random" false 1 0
          ∉ (get_whispers topic 1000000
              (Store.mk [Whisper.mk 1 "old" "random" false 1 0,
                Whisper.mk 2 "new" "vent" false 1 999999]
                [Reply.mk 1 1 "re" 10, Reply.mk 2 2 "re2" 999999])).1)
      ∧ (∀ w2, get_whisper (Whisper.mk 1 "old" "random" false 1 0).id
            (cleanup_old_whispers 1000000
              (Store.mk [Whisper.mk 1 "old" "random" false 1 0,
                Whisper.mk 2 "new" "vent" false 1 999999]
                [Reply.mk 1 1 "re" 10, Reply.mk 2 2 "re2" 999999])).1
            = some w2 → w2 ≠ Whisper.mk 1 "old" "random" false 1 0)) :=
  ⟨by decide, by decide, by decide,
   C6_cascade_complete
     (Store.mk [Whisper.mk 1 "old" "random" false 1 0,
       Whisper.mk 2 "new" "vent" false 1 999999]
       [Reply.mk 1 1 "re" 10, Reply.mk 2 2 "re2" 999999])
     1000000 1000000 (by decide)
     (Whisper.mk 1 "old" "random" false 1 0) (by decide) (by decide)⟩

/-- C9: After any non-empty sequence of successful CreateReply calls
against a whisper (both saves succeeding on every call), the whisper found
under the parent id carries a replies_count equal to the exact number of
reply records referencing that id in the final replies collection. -/
theorem C9_replies_count (wid : Nat) (now : Int) :
    ∀ (contents : List String) (s : Store), contents ≠ [] →
      (∀ c ∈ contents, c ≠ "") →
      (∃ w0, s.whispers.find? (fun w => w.id == wid) = some w0) →
      ∃ w1, ((runReplies wid contents now s).whispers.find?
          (fun w => w.id == wid) = some w1)
        ∧ w1.replies_count
            = (runReplies wid contents now s).replies.countP
                (fun r => r.whisper_id == wid) := by
  intro contents
  induction contents with
  | nil => intro s h; exact absurd rfl h
  | cons c cs ih =>
    intro s _ hall hex
    obtain ⟨w0, hfind⟩ := hex
    have hc : c ≠ "" := hall c (List.mem_cons_self c cs)
    obtain ⟨w1, hfind1, hcount1⟩ := create_reply_count wid hc now s hfind
    by_cases hcs : cs = []
    · subst hcs
      simpa only [runReplies] using ⟨w1, hfind1, hcount1⟩
    · have hall2 : ∀ x ∈ cs, x ≠ "" :=
        fun x hx => hall x (List.mem_cons_of_mem c hx)
      have hrec := ih ((create_reply true true wid (some c) now s).2) hcs
        hall2 ⟨w1, hfind1⟩
      simpa only [runReplies] using hrec

/-- Witness for C9: one reply created against whisper 1 of a concrete
store. -/
theorem C9_replies_count_witness :
    ((["a"] : List String) ≠ [])
    ∧ (∀ c ∈ (["a"] : List String), c ≠ "")
    ∧ (∃ w0, (Store.mk [Whisper.mk 1 "hi" "vent" false 0 100] []).whispers.find?
        (fun w => w.id == 1) = some w0)
    ∧ ∃ w1, ((runReplies 1 ["a"] 0
          (Store.mk [Whisper.mk 1 "hi" "vent" false 0 100] [])).whispers.find?
          (fun w => w.id == 1) = some w1)
        ∧ w1.replies_count
            = (runReplies 1 ["a"] 0
                (Store.mk [Whisper.mk 1 "hi" "vent" false 0 100] [])).replies.countP
                (fun r => r.whisper_id == 1) :=
  ⟨by decide, by decide, ⟨Whisper.mk 1 "hi" "vent" false 0 100, by decide⟩,
   C9_replies_count 1 0 ["a"]
     (Store.mk [Whisper.mk 1 "hi" "vent" false 0 100] [])
     (by decide) (by decide)
     ⟨Whisper.mk 1 "hi" "vent" false 0 100, by decide⟩⟩

/-- C10: CreateReply's success result depends only on the replies save —
when the replies save succeeds but the whispers save fails, the call still
returns the created reply as success, the persisted whispers collection is
unchanged, and the parent whisper's persisted replies_count is strictly
smaller than the number of persisted replies referencing it. -/
theorem C10_count_save_failure_ignored (s : Store) (wid : Nat) (c : String)
    (hc : c ≠ "") (now : Int) (w0 : Whisper)
    (hfind : s.whispers.find? (fun w => w.id == wid) = some w0)
    (hcons : w0.replies_count
      = s.replies.countP (fun r => r.whisper_id == wid)) :
    ((create_reply true false wid (some c) now s).1
        = .success (new_reply wid c now s))
    ∧ (create_reply true false wid (some c) now s).2.whispers = s.whispers
    ∧ ((create_reply true false wid (some c) now s).2.whispers.find?
        (fun w => w.id == wid) = some w0)
    ∧ w0.replies_count
        < (create_reply true false wid (some c) now s).2.replies.countP
            (fun r => r.whisper_id == wid) := by
  rw [create_reply_some_wfail hc hfind]
  refine ⟨rfl, rfl, hfind, ?_⟩
  rw [hcons]
  simp [List.countP_append, List.countP_cons, new_reply]

/-- Witness for C10: a reply against whisper 1 whose count is consistent
beforehand; the failed whispers save leaves the persisted count behind. -/
theorem C10_count_save_failure_ignored_witness :
    ("y" ≠ "")
    ∧ ((Store.mk [Whisper.mk 1 "hi" "vent" false 0 100] []).whispers.find?
        (fun w => w.id == 1) = some (Whisper.mk 1 "hi" "vent" false 0 100))
    ∧ ((Whisper.mk 1 "hi" "vent" false 0 100).replies_count
        = (Store.mk [Whisper.mk 1 "hi" "vent" false 0 100] []).replies.countP
            (fun r => r.whisper_id == 1))
    ∧ ((create_reply true false 1 (some "y") 0
          (Store.mk [Whisper.mk 1 "hi" "vent" false 0 100] [])).1
        = .success (new_reply 1 "y" 0
            (Store.mk [Whisper.mk 1 "hi" "vent" false 0 100] [])))
    ∧ ((create_reply true false 1 (some "y") 0
          (Store.mk [Whisper.mk 1 "hi" "vent" false 0 100] [])).2.whispers
        = (Store.mk [Whisper.mk 1 "hi" "vent" false 0 100] []).whispers)
    ∧ ((create_reply true false 1 (some "y") 0
          (Store.mk [Whisper.mk 1 "hi" "vent" false 0 100] [])).2.whispers.find?
        (fun w => w.id == 1) = some (Whisper.mk 1 "hi" "vent" false 0 100))
    ∧ ((Whisper.mk 1 "hi" "vent" false 0 100).replies_count
        < (create_reply true false 1 (some "y") 0
            (Store.mk [Whisper.mk 1 "hi" "vent" false 0 100] [])).2.replies.countP
            (fun r => r.whisper_id == 1)) :=
  ⟨by decide, by decide, by decide,
   (C10_count_save_failure_ignored
      (Store.mk [Whisper.mk 1 "hi" "vent" false 0 100] []) 1 "y" (by decide) 0
      (Whisper.mk 1 "hi" "vent" false 0 100) (by decide) (by decide)).1,
   (C10_count_save_failure_ignored
      (Store.mk [Whisper.mk 1 "hi" "vent" false 0 100] []) 1 "y" (by decide) 0
      (Whisper.mk 1 "hi" "vent" false 0 100) (by decide) (by decide)).2.1,
   (C10_count_save_failure_ignored
      (Store.mk [Whisper.mk 1 "hi" "vent" false 0 100] []) 1 "y" (by decide) 0
      (Whisper.mk 1 "hi" "vent" false 0 100) (by decide) (by decide)).2.2.1,
   (C10_count_save_failure_ignored
      (Store.mk [Whisper.mk 1 "hi" "vent" false 0 100] []) 1 "y" (by decide) 0
      (Whisper.mk 1 "hi" "vent" false 0 100) (by decide) (by decide)).2.2.2⟩

end WhisperField
